import Mathlib

/-!
Verification development for the pgscv service supervisor.

The Go sources of `internal/service/service.go` (the Registry, discovery,
health-check and setup loops) and `internal/pgscv/config.go` (config
validation) are shallowly embedded below.  External effects are modelled as
oracles: the filesystem is a function from path to optional file lines, a
connection probe is a function from conninfo string to success flag, and
collector construction is a function producing an optional collector handle.
Go machine integers are modelled as unbounded `Int`/`Nat` (overflow is not
relevant to any statement proved here).
-/

/-- Modelled after Go's `strconv.Atoi` digit accumulation. -/
def digitsToNat (s : List Char) : Nat :=
  s.foldl (fun acc c => acc * 10 + (c.toNat - 48)) 0

/-- Modelled after Go's `strconv.Atoi` on an unsigned digit string:
fails on an empty string or any non-digit character. -/
def goAtoiCore (s : List Char) : Option Nat :=
  if s = [] then none
  else if s.all Char.isDigit then some (digitsToNat s) else none

/-- Modelled after Go's `strconv.Atoi`: optional sign followed by a
non-empty digit string (overflow is not modelled). -/
def goAtoi (s : String) : Option Int :=
  match s.toList with
  | [] => none
  | '-' :: rest => (goAtoiCore rest).map (fun n => -(n : Int))
  | '+' :: rest => (goAtoiCore rest).map (fun n => (n : Int))
  | cs => (goAtoiCore cs).map (fun n => (n : Int))

/-- Association-list lookup, modelling a Go `map[string]string` read. -/
def lookupStr : List (String × String) → String → Option String
  | [], _ => none
  | (k, v) :: rest, key => if k = key then some v else lookupStr rest key

/-- Modelled from the spec: the string constants of the `internal/model`
package (its file is not part of the provided sources).  The spec's key forms
`postgres:...`, `pgbouncer:...`, `system:0` and the source comment
`sid="postgres:5432"` fix the values. -/
def serviceTypePostgresql : String := "postgres"

/-- Modelled from the spec: see `serviceTypePostgresql`. -/
def serviceTypePgbouncer : String := "pgbouncer"

/-- Modelled from the spec: see `serviceTypePostgresql`. -/
def serviceTypeSystem : String := "system"

/-- ConnSetting from `internal/service/service.go`. -/
structure ConnSetting where
  serviceType : String
  conninfo : String
deriving DecidableEq

/-- Service record from `internal/service/service.go`.  The prometheus
collector attached to a service is modelled as an optional numeric handle
(`none` is Go's nil interface). -/
structure Service where
  serviceID : String
  connSettings : ConnSetting
  collector : Option Nat
  totalErrors : Nat
deriving DecidableEq

/-- The Go zero value of `Service`, returned by a map read on a missing key. -/
def zeroService : Service :=
  { serviceID := "", connSettings := { serviceType := "", conninfo := "" },
    collector := none, totalErrors := 0 }

/-- connectionParams from `internal/service/service.go` (the
postmaster.pid representation). -/
structure connectionParams where
  pid : Int
  datadirPath : String
  startTs : Int
  unixSocketDirPath : String
  listenAddr : String
  listenPort : Int
deriving DecidableEq

/-- The Go zero value `connectionParams{}`. -/
def emptyConnectionParams : connectionParams :=
  { pid := 0, datadirPath := "", startTs := 0, unixSocketDirPath := "",
    listenAddr := "", listenPort := 0 }

/-- The `Repository.Services` map, modelled as an association list with
unique keys (Go map iteration order is irrelevant to every statement). -/
abbrev Repo := List (String × Service)

/-- Go map read `repo.Services[id]` before zero-value defaulting. -/
def findService : Repo → String → Option Service
  | [], _ => none
  | (k, v) :: rest, id => if k = id then some v else findService rest id

/-- addService from `internal/service/service.go`: Go map write
`repo.Services[id] = s` (replaces in place, inserts when absent). -/
def addService : Repo → String → Service → Repo
  | [], id, s => [(id, s)]
  | (k, v) :: rest, id, s =>
      if k = id then (id, s) :: rest else (k, v) :: addService rest id s

/-- removeService from `internal/service/service.go`: Go `delete(repo.Services, id)`. -/
def removeService : Repo → String → Repo
  | [], _ => []
  | (k, v) :: rest, id => if k = id then rest else (k, v) :: removeService rest id

/-- getService from `internal/service/service.go`: map read with Go
zero-value defaulting. -/
def getService (repo : Repo) (id : String) : Service :=
  (findService repo id).getD zeroService

/-- markServiceFailed from `internal/service/service.go`: read the record
(zero value when absent), increment TotalErrors, write it back. -/
def markServiceFailed (repo : Repo) (id : String) : Repo :=
  let s := getService repo id
  addService repo id { s with totalErrors := s.totalErrors + 1 }

/-- markServiceHealthy from `internal/service/service.go`: read the record
(zero value when absent), set TotalErrors to zero, write it back. -/
def markServiceHealthy (repo : Repo) (id : String) : Repo :=
  let s := getService repo id
  addService repo id { s with totalErrors := 0 }

/-- getServiceStatus from `internal/service/service.go`. -/
def getServiceStatus (repo : Repo) (id : String) : Nat :=
  (getService repo id).totalErrors

/-- totalServices from `internal/service/service.go`. -/
def totalServices (repo : Repo) : Nat := repo.length

/-- getServiceIDs from `internal/service/service.go`. -/
def getServiceIDs (repo : Repo) : List String := repo.map (fun p => p.1)

/-- Supervisor state: the service repository plus the process-wide
prometheus registrar (the set of registered collector handles). -/
structure State where
  repo : Repo
  registrar : List Nat
deriving DecidableEq

/-- errorThreshold from healthcheckServices: remove after 10 failed checks. -/
def errorThreshold : Nat := 10

/-- One iteration of the loop body of healthcheckServices from
`internal/service/service.go`, for one service id.  `probe` is the
`attemptConnect` oracle (true = connection succeeded). -/
def healthcheckStep (probe : String → Bool) (st : State) (id : String) : State :=
  let service := getService st.repo id
  if service.connSettings.serviceType = serviceTypePostgresql ∨
     service.connSettings.serviceType = serviceTypePgbouncer then
    let totalErrors := getServiceStatus st.repo id
    if probe service.connSettings.conninfo then
      st
    else
      if totalErrors + 1 < errorThreshold then
        { st with repo := markServiceFailed st.repo id }
      else
        let st1 :=
          match (getService st.repo id).collector with
          | some c => { st with registrar := st.registrar.filter (fun x => x ≠ c) }
          | none => st
        { st1 with repo := removeService st1.repo id }
  else st

/-- healthcheckServices from `internal/service/service.go`: snapshot the id
list, then process each id in turn. -/
def healthcheckServices (probe : String → Bool) (st : State) : State :=
  (getServiceIDs st.repo).foldl (healthcheckStep probe) st

/-- A process-table entry, as exposed by the gopsutil Process Inspector.
`cmdline` is `CmdlineSlice` (used by the postgres branch), `cmdlineStr` is
`Cmdline` (used by the pgbouncer branch). -/
structure GoProcess where
  name : String
  ppid : Int
  cmdline : List String
  cmdlineStr : String

/-- Filesystem oracle: path to optional file content, given as the list of
lines (line-terminator handling of the Go readers is external). -/
abbrev Fs := String → Option (List String)

/-- parsePostgresProcessCmdline from `internal/service/service.go`: the
argument following the first `-D`. -/
def parsePostgresProcessCmdline : List String → Option String
  | [] => none
  | arg :: rest =>
      if arg = "-D" ∧ rest ≠ [] then some (rest.headD "")
      else parsePostgresProcessCmdline rest

/-- One iteration of the line switch of newPostgresConnectionParams from
`internal/service/service.go`: line index `i` updates one field; numeric
fields fail when `strconv` fails; indices past five are ignored. -/
def applyPidLine (p : connectionParams) (i : Nat) (line : String) : Option connectionParams :=
  match i with
  | 0 => (goAtoi line).map (fun n => { p with pid := n })
  | 1 => some { p with datadirPath := line }
  | 2 => (goAtoi line).map (fun n => { p with startTs := n })
  | 3 => (goAtoi line).map (fun n => { p with listenPort := n })
  | 4 => some { p with unixSocketDirPath := line }
  | 5 => some { p with listenAddr := if line = "*" then "127.0.0.1" else line }
  | _ + 6 => some p

/-- The read loop of newPostgresConnectionParams: fold the lines from index
`i`, stopping with `none` on the first field error. -/
def parsePidLines : Nat → connectionParams → List String → Option connectionParams
  | _, p, [] => some p
  | i, p, l :: rest =>
      match applyPidLine p i l with
      | none => none
      | some p1 => parsePidLines (i + 1) p1 rest

/-- newPostgresConnectionParams from `internal/service/service.go`: read the
postmaster.pid file and fold its lines (a missing file is a read error). -/
def newPostgresConnectionParams (fs : Fs) (pidFilePath : String) : Option connectionParams :=
  (fs pidFilePath).bind (parsePidLines 0 emptyConnectionParams)

/-- newPostgresConnectionString from `internal/service/service.go`. -/
def newPostgresConnectionString (connParams : connectionParams)
    (defaults : List (String × String)) (unix : Bool) : String :=
  let username := (lookupStr defaults "postgres_username").getD "pgscv"
  let dbname := (lookupStr defaults "postgres_dbname").getD "postgres"
  let password := (lookupStr defaults "postgres_password").getD ""
  let connString := "application_name=pgscv"
  let connString :=
    if unix ∧ connParams.unixSocketDirPath ≠ "" then
      connString ++ " host=" ++ connParams.unixSocketDirPath
    else if ¬ unix ∧ connParams.listenAddr ≠ "" then
      connString ++ " host=" ++ connParams.listenAddr
    else connString
  let connString :=
    if 0 < connParams.listenPort then
      connString ++ " port=" ++ toString connParams.listenPort
    else connString
  let connString := connString ++ " user=" ++ username ++ " dbname=" ++ dbname
  if password ≠ "" then connString ++ " password=" ++ password else connString

/-- discoverPostgres from `internal/service/service.go`: locate the data
directory from the cmdline, parse postmaster.pid, then pick the first of the
unix / TCP conninfo variants whose probe succeeds (keeping the TCP variant
when both fail); the probe result never aborts discovery. -/
def discoverPostgres (fs : Fs) (probe : String → Bool)
    (defaults : List (String × String)) (proc : GoProcess) : Option Service :=
  match parsePostgresProcessCmdline proc.cmdline with
  | none => none
  | some datadirCmdPath =>
    match newPostgresConnectionParams fs (datadirCmdPath ++ "/postmaster.pid") with
    | none => none
    | some connParams =>
      let s1 := newPostgresConnectionString connParams defaults true
      let connString :=
        if probe s1 then s1 else newPostgresConnectionString connParams defaults false
      some { serviceID := serviceTypePostgresql ++ ":" ++ toString connParams.listenPort,
             connSettings := { serviceType := serviceTypePostgresql, conninfo := connString },
             collector := none, totalErrors := 0 }

/-- Split a character list at every occurrence of a separator character
(kernel-reducible model of Go `strings.Split` for one-character
separators). -/
def splitOnChar (c : Char) : List Char → List (List Char)
  | [] => [[]]
  | x :: rest =>
    match splitOnChar c rest with
    | [] => [[]]
    | g :: gs => if x = c then [] :: g :: gs else (x :: g) :: gs

/-- Go `strings.Split` for a one-character separator. -/
def goSplitOn (c : Char) (s : String) : List String :=
  (splitOnChar c s.toList).map List.asString

/-- Go `strings.HasPrefix`. -/
def goHasPrefix (s pre : String) : Bool :=
  pre.toList.isPrefixOf s.toList

/-- parsePgbouncerCmdline from `internal/service/service.go`: first
field after the executable that does not start with a dash.  Go
`strings.Fields` is modelled as splitting on spaces and dropping empties. -/
def parsePgbouncerCmdline (cmdline : String) : String :=
  let parts := (goSplitOn ' ' cmdline).filter (fun s => s ≠ "")
  ((parts.drop 1).find? (fun s => ¬ goHasPrefix s "-")).getD ""

/-- One line of the ini scan of parsePgbouncerIniFile from
`internal/service/service.go`: skip comments, blanks and non `k=v` lines;
`listen_addr` takes the first comma entry with `*` normalized;
`listen_port` must parse as an integer. -/
def applyPgbouncerIniLine (connParams : connectionParams) (line : String) :
    Option connectionParams :=
  if goHasPrefix line ";" ∨ goHasPrefix line "#" ∨ line = "" then some connParams
  else
    let line := (line.toList.filter (fun c => c ≠ ' ')).asString
    match goSplitOn '=' line with
    | [paramName, paramValue] =>
      if paramName = "listen_addr" then
        let a := ((goSplitOn ',' paramValue).headD "")
        some { connParams with listenAddr := if a = "*" then "127.0.0.1" else a }
      else if paramName = "listen_port" then
        (goAtoi paramValue).map (fun n => { connParams with listenPort := n })
      else if paramName = "unix_socket_dir" then
        some { connParams with unixSocketDirPath := paramValue }
      else some connParams
    | _ => some connParams

/-- The scan loop of parsePgbouncerIniFile. -/
def parsePgbouncerIniLines : connectionParams → List String → Option connectionParams
  | p, [] => some p
  | p, l :: rest =>
      match applyPgbouncerIniLine p l with
      | none => none
      | some p1 => parsePgbouncerIniLines p1 rest

/-- parsePgbouncerIniFile from `internal/service/service.go`: scan the ini
file, then apply the pgbouncer defaults for empty values. -/
def parsePgbouncerIniFile (fs : Fs) (iniFilePath : String) : Option connectionParams :=
  match fs iniFilePath with
  | none => none
  | some lines =>
    match parsePgbouncerIniLines emptyConnectionParams lines with
    | none => none
    | some p =>
      let p := if p.unixSocketDirPath = "" then { p with unixSocketDirPath := "/tmp" } else p
      some (if p.listenPort = 0 then { p with listenPort := 6432 } else p)

/-- newPgbouncerConnectionString from `internal/service/service.go`. -/
def newPgbouncerConnectionString (connParams : connectionParams)
    (defaults : List (String × String)) : String :=
  let username := (lookupStr defaults "pgbouncer_username").getD "pgscv"
  let password := (lookupStr defaults "pgbouncer_password").getD ""
  let connString := "application_name=pgscv"
  let connString :=
    if connParams.listenAddr ≠ "" then connString ++ " host=" ++ connParams.listenAddr
    else if connParams.unixSocketDirPath ≠ "" then
      connString ++ " host=" ++ connParams.unixSocketDirPath
    else connString
  let connString :=
    if 0 < connParams.listenPort then
      connString ++ " port=" ++ toString connParams.listenPort
    else connString
  connString ++ " user=" ++ username ++ " dbname=pgbouncer" ++
    (if password ≠ "" then " password=" ++ password else "")

/-- discoverPgbouncer from `internal/service/service.go`: unlike the
postgres variant, a failed connection probe aborts discovery. -/
def discoverPgbouncer (fs : Fs) (probe : String → Bool)
    (defaults : List (String × String)) (proc : GoProcess) : Option Service :=
  if proc.cmdlineStr = "" then none
  else
    match parsePgbouncerIniFile fs (parsePgbouncerCmdline proc.cmdlineStr) with
    | none => none
    | some connParams =>
      let connString := newPgbouncerConnectionString connParams defaults
      if probe connString then
        some { serviceID := serviceTypePgbouncer ++ ":" ++ toString connParams.listenPort,
               connSettings := { serviceType := serviceTypePgbouncer, conninfo := connString },
               collector := none, totalErrors := 0 }
      else none

/-- The per-process discovery outcome of the switch in lookupServices from
`internal/service/service.go`: a proposed service, or nothing (wrong name,
wrong parent, or a discovery error, which is logged and skipped). -/
def candidate (fs : Fs) (probe : String → Bool)
    (defaults : List (String × String)) (proc : GoProcess) : Option Service :=
  if proc.name = "postgres" then
    if proc.ppid = 1 then discoverPostgres fs probe defaults proc else none
  else if proc.name = "pgbouncer" then discoverPgbouncer fs probe defaults proc
  else none

/-- One iteration of the pid loop of lookupServices from
`internal/service/service.go`: a discovered service is added unless a
record whose ServiceID matches is already present. -/
def lookupStep (fs : Fs) (probe : String → Bool)
    (defaults : List (String × String)) (repo : Repo) (proc : GoProcess) : Repo :=
  match candidate fs probe defaults proc with
  | none => repo
  | some s =>
    if (getService repo s.serviceID).serviceID = s.serviceID then repo
    else addService repo s.serviceID s

/-- lookupServices from `internal/service/service.go`: scan the process
table and add newly discovered services. -/
def lookupServices (fs : Fs) (probe : String → Bool)
    (defaults : List (String × String)) (procs : List GoProcess) (repo : Repo) : Repo :=
  procs.foldl (lookupStep fs probe defaults) repo

/-- The loop of setupServices from `internal/service/service.go`.
`pgCfgOk` models `collector.NewPostgresServiceConfig` success, `mk` models
`collector.NewPgscvCollector` (none = error, which aborts the whole pass and
returns the error to the caller; the Bool result is the success flag).
A successful construction registers the handle and stores the updated
record. -/
def setupGo (pgCfgOk : String → Bool) (mk : String → Option Nat) :
    List String → State → State × Bool
  | [], st => (st, true)
  | id :: rest, st =>
    let service := getService st.repo id
    if service.collector = none then
      let t := service.connSettings.serviceType
      if t = serviceTypeSystem ∨ t = serviceTypePostgresql ∨ t = serviceTypePgbouncer then
        if t = serviceTypePostgresql ∧ ¬ pgCfgOk service.connSettings.conninfo then
          setupGo pgCfgOk mk rest st
        else
          match mk id with
          | none => (st, false)
          | some c =>
            let st1 : State :=
              { repo := addService st.repo id { service with collector := some c },
                registrar := st.registrar ++ [c] }
            setupGo pgCfgOk mk rest st1
      else setupGo pgCfgOk mk rest st
    else setupGo pgCfgOk mk rest st

/-- setupServices from `internal/service/service.go`. -/
def setupServices (pgCfgOk : String → Bool) (mk : String → Option Nat) (st : State) :
    State × Bool :=
  setupGo pgCfgOk mk (getServiceIDs st.repo) st

/-- The Service literal inserted for the host pseudo-service by
addServicesFromConfig and startBackgroundDiscovery in
`internal/service/service.go`. -/
def systemService : Service :=
  { serviceID := "system:0",
    connSettings := { serviceType := serviceTypeSystem, conninfo := "" },
    collector := none, totalErrors := 0 }

/-- One pass of the loop body of startBackgroundDiscovery from
`internal/service/service.go`: lookup, then setup (an error skips the rest
of the pass), then healthcheck. -/
def discoveryTickBody (fs : Fs) (probe : String → Bool)
    (defaults : List (String × String)) (pgCfgOk : String → Bool)
    (mk : String → Option Nat) (procs : List GoProcess) (st : State) : State :=
  let st1 : State := { st with repo := lookupServices fs probe defaults procs st.repo }
  match setupServices pgCfgOk mk st1 with
  | (st2, true) => healthcheckServices probe st2
  | (st2, false) => st2

/-- Config from `internal/pgscv/config.go`, restricted to the fields read
by Validate (SendMetricsInterval is a constant and not modelled). -/
structure PgscvConfig where
  sendMetricsURL : String
  apiKey : String
  listenAddress : String
  noTrackMode : Bool
  defaults : List (String × String)
  servicesConnSettings : Option (List ConnSetting)
deriving DecidableEq

/-- The `if _, ok := map[k]; !ok { map[k] = v }` pattern of Validate. -/
def setDefault (m : List (String × String)) (k v : String) : List (String × String) :=
  match lookupStr m k with
  | some _ => m
  | none => m ++ [(k, v)]

/-- The services loop of Validate from `internal/pgscv/config.go`:
an empty service_type or an unparsable conninfo is an error.  `parseConnOk`
models `pgx.ParseConfig` success. -/
def validateServices (parseConnOk : String → Bool) : List ConnSetting → Option String
  | [] => none
  | cs :: rest =>
    if cs.serviceType = "" then some "service_type is not specified"
    else if ¬ parseConnOk cs.conninfo then some "invalid conninfo"
    else validateServices parseConnOk rest

/-- Validate from `internal/pgscv/config.go`: the API-key gate, listen
default, defaults filling, per-service validation and filter compilation
(`filtersOk` models `Filters.Compile` success). -/
def Validate (parseConnOk : String → Bool) (filtersOk : Bool) (c : PgscvConfig) :
    Except String PgscvConfig :=
  if c.sendMetricsURL ≠ "" ∧ c.apiKey = "" then .error "API key should be specified"
  else
    let c := { c with
      listenAddress := if c.listenAddress = "" then "127.0.0.1:9890" else c.listenAddress }
    let c := { c with
      defaults := setDefault (setDefault (setDefault (setDefault c.defaults
        "postgres_username" "pgscv") "postgres_dbname" "postgres")
        "pgbouncer_username" "pgscv") "pgbouncer_dbname" "pgbouncer" }
    match validateServices parseConnOk (c.servicesConnSettings.getD []) with
    | some e => .error e
    | none => if filtersOk then .ok c else .error "filters compile failed"

/-- Success test for Validate results. -/
def isOkE : Except String PgscvConfig → Bool
  | .ok _ => true
  | .error _ => false

/- Concrete discovery scenario (spec scenario S1): one postmaster with data
directory /var/lib/pg and a six-line postmaster.pid. -/

/-- Filesystem with the S1 postmaster.pid. -/
def fsS1 : Fs := fun p =>
  if p = "/var/lib/pg/postmaster.pid" then
    some ["42", "/var/lib/pg", "1700000000", "5432", "/tmp", "*"]
  else none

/-- The S1 postmaster process. -/
def procS1 : GoProcess :=
  { name := "postgres", ppid := 1, cmdline := ["postgres", "-D", "/var/lib/pg"],
    cmdlineStr := "" }

/-- Filesystem with the S5 pgbouncer ini file. -/
def fsPgb : Fs := fun p =>
  if p = "/etc/pgbouncer/pgbouncer.ini" then
    some ["; comment", "listen_addr = *, 10.0.0.1", "listen_port = 16432"]
  else none

/-- The S5 pgbouncer process. -/
def procPgb : GoProcess :=
  { name := "pgbouncer", ppid := 7, cmdline := [],
    cmdlineStr := "/usr/sbin/pgbouncer -d /etc/pgbouncer/pgbouncer.ini" }

/- Registry lemmas -/

theorem findService_addService (repo : Repo) (k k' : String) (s : Service) :
    findService (addService repo k s) k' = if k = k' then some s else findService repo k' := by
  induction repo with
  | nil => simp [addService, findService]
  | cons p rest ih =>
    obtain ⟨pk, pv⟩ := p
    by_cases hk : pk = k
    · subst hk
      by_cases h : pk = k' <;> simp [addService, findService, h]
    · by_cases h : pk = k'
      · subst h
        have hne : ¬ k = pk := fun hh => hk hh.symm
        simp [addService, findService, hk, hne]
      · simp [addService, findService, hk, h, ih]

theorem findService_removeService_ne (repo : Repo) (k k' : String) (h : k ≠ k') :
    findService (removeService repo k) k' = findService repo k' := by
  induction repo with
  | nil => simp [removeService]
  | cons p rest ih =>
    obtain ⟨pk, pv⟩ := p
    by_cases hk : pk = k
    · subst hk
      simp [removeService, findService, h]
    · simp [removeService, findService, hk, ih]

theorem addService_absent (repo : Repo) (id : String) (s : Service)
    (h : findService repo id = none) :
    addService repo id s = repo ++ [(id, s)] := by
  induction repo with
  | nil => simp [addService]
  | cons p rest ih =>
    obtain ⟨pk, pv⟩ := p
    by_cases hk : pk = id
    · rw [findService, if_pos hk] at h
      exact absurd h (by simp)
    · rw [findService, if_neg hk] at h
      simp [addService, hk, ih h]

/-- C10: calling markServiceFailed or markServiceHealthy with a service id
absent from the Registry is not a no-op: it appends a fresh zero-valued
record under that id (total_errors 1 for markServiceFailed, 0 for
markServiceHealthy) and grows the Registry by one. -/
theorem markService_missing_id_inserts (repo : Repo) (id : String)
    (h : findService repo id = none) :
    markServiceFailed repo id = repo ++ [(id, { zeroService with totalErrors := 1 })] ∧
    markServiceHealthy repo id = repo ++ [(id, zeroService)] ∧
    totalServices (markServiceFailed repo id) = totalServices repo + 1 ∧
    totalServices (markServiceHealthy repo id) = totalServices repo + 1 := by
  have hget : getService repo id = zeroService := by
    simp [getService, h]
  have h1 : markServiceFailed repo id = repo ++ [(id, { zeroService with totalErrors := 1 })] := by
    simp only [markServiceFailed, hget]
    exact addService_absent repo id _ h
  have h2 : markServiceHealthy repo id = repo ++ [(id, zeroService)] := by
    simp only [markServiceHealthy, hget]
    exact addService_absent repo id _ h
  refine ⟨h1, h2, ?_, ?_⟩ <;> simp [h1, h2, totalServices]

/-- Witness for C10 at a concrete one-entry registry and a missing id. -/
theorem markService_missing_id_inserts_w :
    findService [("system:0", systemService)] "postgres:5432" = none ∧
    markServiceFailed [("system:0", systemService)] "postgres:5432" =
      [("system:0", systemService),
       ("postgres:5432", { zeroService with totalErrors := 1 })] ∧
    totalServices (markServiceHealthy [("system:0", systemService)] "postgres:5432") = 2 :=
  ⟨by decide,
   (markService_missing_id_inserts [("system:0", systemService)] "postgres:5432" (by decide)).1,
   by
     have := (markService_missing_id_inserts [("system:0", systemService)] "postgres:5432"
       (by decide)).2.2.2
     simpa using this⟩

/-- C9: Validate fails whenever send_metrics_url is non-empty and api_key is
empty; when send_metrics_url is empty, the api_key value has no effect on
whether validation succeeds. -/
theorem validate_api_key_gate (parseConnOk : String → Bool) (filtersOk : Bool)
    (c : PgscvConfig) :
    (c.sendMetricsURL ≠ "" ∧ c.apiKey = "" →
        Validate parseConnOk filtersOk c = .error "API key should be specified") ∧
    (c.sendMetricsURL = "" → ∀ k,
        isOkE (Validate parseConnOk filtersOk { c with apiKey := k }) =
        isOkE (Validate parseConnOk filtersOk c)) := by
  constructor
  · intro h
    simp [Validate, h.1, h.2]
  · intro h k
    simp only [Validate, h]
    simp only [ne_eq, not_true_eq_false, false_and, if_false, ite_false]
    cases hv : validateServices parseConnOk (c.servicesConnSettings.getD []) <;>
      cases filtersOk <;> simp [hv, isOkE]

/-- Witness for C9: a pushing config with an empty key is rejected, and with
no push URL the key does not matter. -/
theorem validate_api_key_gate_w :
    Validate (fun _ => true) true
        { sendMetricsURL := "https://example.org", apiKey := "", listenAddress := "",
          noTrackMode := false, defaults := [], servicesConnSettings := none } =
      .error "API key should be specified" ∧
    isOkE (Validate (fun _ => true) true
        { sendMetricsURL := "", apiKey := "k", listenAddress := "",
          noTrackMode := false, defaults := [], servicesConnSettings := none }) =
      isOkE (Validate (fun _ => true) true
        { sendMetricsURL := "", apiKey := "", listenAddress := "",
          noTrackMode := false, defaults := [], servicesConnSettings := none }) :=
  ⟨(validate_api_key_gate (fun _ => true) true _).1 (by exact ⟨by decide, rfl⟩),
   (validate_api_key_gate (fun _ => true) true
      { sendMetricsURL := "", apiKey := "", listenAddress := "",
        noTrackMode := false, defaults := [], servicesConnSettings := none }).2 rfl "k"⟩

/-- C8: for a six-line postmaster.pid whose numeric lines parse, the engine
locator returns ConnectionParams whose fields equal the lines, with a `*`
listen address normalized to 127.0.0.1. -/
theorem newPostgresConnectionParams_six_lines (fs : Fs) (path : String)
    (l0 l1 l2 l3 l4 l5 : String) (pid ts port : Int)
    (hfs : fs path = some [l0, l1, l2, l3, l4, l5])
    (h0 : goAtoi l0 = some pid) (h2 : goAtoi l2 = some ts) (h3 : goAtoi l3 = some port) :
    newPostgresConnectionParams fs path =
      some { pid := pid, datadirPath := l1, startTs := ts, unixSocketDirPath := l4,
             listenAddr := if l5 = "*" then "127.0.0.1" else l5, listenPort := port } := by
  simp [newPostgresConnectionParams, hfs, parsePidLines, applyPidLine, h0, h2, h3]

/-- Witness for C8 at the S1 postmaster.pid. -/
theorem newPostgresConnectionParams_six_lines_w :
    fsS1 "/var/lib/pg/postmaster.pid" =
      some ["42", "/var/lib/pg", "1700000000", "5432", "/tmp", "*"] ∧
    newPostgresConnectionParams fsS1 "/var/lib/pg/postmaster.pid" =
      some { pid := 42, datadirPath := "/var/lib/pg", startTs := 1700000000,
             unixSocketDirPath := "/tmp",
             listenAddr := if "*" = "*" then "127.0.0.1" else "*", listenPort := 5432 } :=
  ⟨by decide,
   newPostgresConnectionParams_six_lines fsS1 "/var/lib/pg/postmaster.pid"
     "42" "/var/lib/pg" "1700000000" "5432" "/tmp" "*" 42 1700000000 5432
     (by decide) (by decide) (by decide) (by decide)⟩

/-- C1: divergence witness.  A remote service holding three accumulated
failures keeps them unchanged across a health tick whose probe succeeds:
healthcheckServices has no success branch and markServiceHealthy is never
invoked, so the counter is not reset to 0 (the reset the spec requires would
be the third conjunct). -/
theorem healthcheck_success_keeps_counter :
    healthcheckServices (fun _ => true)
        ⟨[("postgres:5432", ⟨"postgres:5432", ⟨"postgres", "conninfo"⟩, none, 3⟩)], []⟩ =
      ⟨[("postgres:5432", ⟨"postgres:5432", ⟨"postgres", "conninfo"⟩, none, 3⟩)], []⟩ ∧
    getServiceStatus [("postgres:5432", ⟨"postgres:5432", ⟨"postgres", "conninfo"⟩, none, 3⟩)]
        "postgres:5432" = 3 ∧
    getServiceStatus
        (markServiceHealthy
          [("postgres:5432", ⟨"postgres:5432", ⟨"postgres", "conninfo"⟩, none, 3⟩)]
          "postgres:5432")
        "postgres:5432" = 0 := by decide

/-- C4 counterexample: with every connection probe failing, the S1 postgres
candidate is still added to the Registry in the same tick (with the TCP
conninfo variant), contradicting the claim that no record is added. -/
theorem lookup_adds_despite_probe_failure :
    findService
        (lookupServices fsS1 (fun _ => false) [] [procS1] [("system:0", systemService)])
        "postgres:5432" =
      some ⟨"postgres:5432",
        ⟨"postgres", "application_name=pgscv host=127.0.0.1 port=5432 user=pgscv dbname=postgres"⟩,
        none, 0⟩ := by decide

/-- C4 amended: admission of a postgres candidate depends only on the engine
locator (cmdline parse and postmaster.pid parse); the connection probe
outcome never affects whether the service is produced, it only selects the
stored conninfo variant. -/
theorem discoverPostgres_admission_ignores_probe (fs : Fs)
    (defaults : List (String × String)) (proc : GoProcess) (probe probe' : String → Bool) :
    (discoverPostgres fs probe defaults proc).isSome =
      (discoverPostgres fs probe' defaults proc).isSome ∧
    (discoverPostgres fs probe defaults proc).isSome =
      ((parsePostgresProcessCmdline proc.cmdline).bind
        (fun d => newPostgresConnectionParams fs (d ++ "/postmaster.pid"))).isSome := by
  cases hc : parsePostgresProcessCmdline proc.cmdline with
  | none => simp [discoverPostgres, hc]
  | some d =>
    cases hp : newPostgresConnectionParams fs (d ++ "/postmaster.pid") with
    | none => simp [discoverPostgres, hc, hp]
    | some params => simp [discoverPostgres, hc, hp]

/-- C3 counterexample: the S1 postgres service (listen address 127.0.0.1,
port 5432) is stored under the key postgres:5432, and no record exists under
the claimed key postgres:127.0.0.1:5432. -/
theorem discovered_key_has_no_host :
    (findService
        (lookupServices fsS1 (fun _ => true) [] [procS1] [("system:0", systemService)])
        "postgres:127.0.0.1:5432" = none) ∧
    (findService
        (lookupServices fsS1 (fun _ => true) [] [procS1] [("system:0", systemService)])
        "postgres:5432").isSome = true := by decide

/-- C3 amended: every service produced by discovery has an id of the form
service type, colon, listen port (no host component); the host pseudo-service
keeps the literal key system:0. -/
theorem discovered_serviceID_form (fs : Fs) (probe : String → Bool)
    (defaults : List (String × String)) (proc : GoProcess) (s : Service) :
    (discoverPostgres fs probe defaults proc = some s →
      ∃ p : Int, s.serviceID = serviceTypePostgresql ++ ":" ++ toString p ∧
        s.connSettings.serviceType = serviceTypePostgresql) ∧
    (discoverPgbouncer fs probe defaults proc = some s →
      ∃ p : Int, s.serviceID = serviceTypePgbouncer ++ ":" ++ toString p ∧
        s.connSettings.serviceType = serviceTypePgbouncer) ∧
    systemService.serviceID = "system:0" := by
  refine ⟨?_, ?_, rfl⟩
  · intro h
    cases hc : parsePostgresProcessCmdline proc.cmdline with
    | none => simp [discoverPostgres, hc] at h
    | some d =>
      cases hp : newPostgresConnectionParams fs (d ++ "/postmaster.pid") with
      | none => simp [discoverPostgres, hc, hp] at h
      | some params =>
        refine ⟨params.listenPort, ?_, ?_⟩ <;>
          simp [discoverPostgres, hc, hp] at h <;> simp [← h]
  · intro h
    by_cases he : proc.cmdlineStr = ""
    · simp [discoverPgbouncer, he] at h
    · cases hp : parsePgbouncerIniFile fs (parsePgbouncerCmdline proc.cmdlineStr) with
      | none => simp [discoverPgbouncer, he, hp] at h
      | some params =>
        by_cases hpr : probe (newPgbouncerConnectionString params defaults)
        · refine ⟨params.listenPort, ?_, ?_⟩ <;>
            simp [discoverPgbouncer, he, hp, hpr] at h <;> simp [← h]
        · simp [discoverPgbouncer, he, hp, hpr] at h

/-- Witness for C3's amended statement at the S1 postgres and S5 pgbouncer
candidates. -/
theorem discovered_serviceID_form_w :
    (∃ p : Int,
      (⟨"postgres:5432",
        ⟨"postgres", "application_name=pgscv host=/tmp port=5432 user=pgscv dbname=postgres"⟩,
        none, 0⟩ : Service).serviceID = serviceTypePostgresql ++ ":" ++ toString p ∧
      serviceTypePostgresql = serviceTypePostgresql) ∧
    (∃ p : Int,
      (⟨"pgbouncer:16432",
        ⟨"pgbouncer",
         "application_name=pgscv host=127.0.0.1 port=16432 user=pgscv dbname=pgbouncer"⟩,
        none, 0⟩ : Service).serviceID = serviceTypePgbouncer ++ ":" ++ toString p ∧
      serviceTypePgbouncer = serviceTypePgbouncer) := by
  constructor
  · have h := (discovered_serviceID_form fsS1 (fun _ => true) [] procS1
      ⟨"postgres:5432",
        ⟨"postgres", "application_name=pgscv host=/tmp port=5432 user=pgscv dbname=postgres"⟩,
        none, 0⟩).1 (by decide)
    obtain ⟨p, hp, _⟩ := h
    exact ⟨p, hp, rfl⟩
  · have h := (discovered_serviceID_form fsPgb (fun _ => true) [] procPgb
      ⟨"pgbouncer:16432",
        ⟨"pgbouncer",
         "application_name=pgscv host=127.0.0.1 port=16432 user=pgscv dbname=pgbouncer"⟩,
        none, 0⟩).2.1 (by decide)
    obtain ⟨p, hp, _⟩ := h
    exact ⟨p, hp, rfl⟩

theorem applyPidLine_eq_none_iff (p : connectionParams) (i : Nat) (l : String) :
    applyPidLine p i l = none ↔ (i = 0 ∨ i = 2 ∨ i = 3) ∧ goAtoi l = none := by
  rcases i with _|_|_|_|_|_|n
  · cases h : goAtoi l <;> simp [applyPidLine, h]
  · simp [applyPidLine]
  · cases h : goAtoi l <;> simp [applyPidLine, h]
  · cases h : goAtoi l <;> simp [applyPidLine, h]
  · simp [applyPidLine]
  · simp [applyPidLine]
  · simp [applyPidLine]

theorem parsePidLines_eq_none_iff (ls : List String) : ∀ (i : Nat) (p : connectionParams),
    parsePidLines i p ls = none ↔
      ∃ j, j < ls.length ∧ (i + j = 0 ∨ i + j = 2 ∨ i + j = 3) ∧
        goAtoi (ls.getD j "") = none := by
  induction ls with
  | nil => intro i p; simp [parsePidLines]
  | cons l rest ih =>
    intro i p
    cases ha : applyPidLine p i l with
    | none =>
      obtain ⟨hmem, hatoi⟩ := (applyPidLine_eq_none_iff p i l).mp ha
      simp only [parsePidLines, ha]
      constructor
      · intro _
        exact ⟨0, by simp, by simpa using hmem, by simpa using hatoi⟩
      · intro _
        trivial
    | some p1 =>
      simp only [parsePidLines, ha]
      rw [ih (i + 1) p1]
      constructor
      · rintro ⟨j, hj, hidx, hfail⟩
        refine ⟨j + 1, ?_, ?_, ?_⟩
        · simpa using Nat.succ_lt_succ hj
        · omega
        · simpa using hfail
      · rintro ⟨j, hj, hidx, hfail⟩
        cases j with
        | zero =>
          exfalso
          have hnone : applyPidLine p i l = none :=
            (applyPidLine_eq_none_iff p i l).mpr ⟨by omega, by simpa using hfail⟩
          rw [hnone] at ha
          cases ha
        | succ j1 =>
          refine ⟨j1, ?_, ?_, ?_⟩
          · simpa using Nat.lt_of_succ_lt_succ hj
          · omega
          · simpa using hfail

theorem parsePostgresProcessCmdline_isSome_iff (cmdline : List String) :
    (parsePostgresProcessCmdline cmdline).isSome ↔
      ∃ i, i + 1 < cmdline.length ∧ cmdline.getD i "" = "-D" := by
  induction cmdline with
  | nil => simp [parsePostgresProcessCmdline]
  | cons a rest ih =>
    by_cases h : a = "-D" ∧ rest ≠ []
    · simp only [parsePostgresProcessCmdline, if_pos h, Option.isSome_some, true_iff]
      refine ⟨0, ?_, by simp [h.1]⟩
      have h0 : 0 < rest.length := List.length_pos.mpr h.2
      simpa using Nat.succ_lt_succ h0
    · simp only [parsePostgresProcessCmdline, if_neg h]
      rw [ih]
      constructor
      · rintro ⟨i, hi, hd⟩
        refine ⟨i + 1, ?_, ?_⟩
        · simpa using Nat.succ_lt_succ hi
        · simpa using hd
      · rintro ⟨i, hi, hd⟩
        cases i with
        | zero =>
          exfalso
          simp only [List.getD_cons_zero] at hd
          rcases rest with _ | ⟨b, rest1⟩
          · simp at hi
          · exact h ⟨hd, by simp⟩
        | succ i1 =>
          refine ⟨i1, ?_, ?_⟩
          · simpa using Nat.lt_of_succ_lt_succ hi
          · simpa using hd

/-- C7 counterexample: a postmaster.pid content of a single line (lines two
to six absent) is accepted by the engine locator without error; the unread
fields keep their zero values rather than producing an InvalidMetadata
error. -/
theorem short_pidfile_accepted :
    newPostgresConnectionParams
        (fun p => if p = "/d/postmaster.pid" then some ["42"] else none)
        "/d/postmaster.pid" = some { emptyConnectionParams with pid := 42 } := by decide

/-- C7 amended: the relational engine locator errors exactly when the
data-directory argument is missing from the cmdline, when the pidfile cannot
be read, or when a numeric line (index 0, 2 or 3) that is present fails to
parse as an integer; absent lines are not an error and leave zero-valued
fields. -/
theorem engineLocator_error_characterization (fs : Fs) (path : String) (cmdline : List String) :
    (parsePostgresProcessCmdline cmdline = none ↔
      ¬ ∃ i, i + 1 < cmdline.length ∧ cmdline.getD i "" = "-D") ∧
    (newPostgresConnectionParams fs path = none ↔
      fs path = none ∨ ∃ lines j, fs path = some lines ∧ j < lines.length ∧
        (j = 0 ∨ j = 2 ∨ j = 3) ∧ goAtoi (lines.getD j "") = none) := by
  constructor
  · rw [← parsePostgresProcessCmdline_isSome_iff, Option.not_isSome_iff_eq_none]
  · cases hf : fs path with
    | none => simp [newPostgresConnectionParams, hf]
    | some lines =>
      simp only [newPostgresConnectionParams, hf, Option.some_bind]
      rw [parsePidLines_eq_none_iff]
      simp

theorem healthcheckServices_single_fail (probe : String → Bool) (id : String) (s : Service)
    (regs : List Nat)
    (htype : s.connSettings.serviceType = serviceTypePostgresql ∨
             s.connSettings.serviceType = serviceTypePgbouncer)
    (hprobe : probe s.connSettings.conninfo = false) (k : Nat) (hk : k + 1 < errorThreshold) :
    healthcheckServices probe ⟨[(id, { s with totalErrors := k })], regs⟩ =
      ⟨[(id, { s with totalErrors := k + 1 })], regs⟩ := by
  simp [healthcheckServices, getServiceIDs, healthcheckStep, getService, getServiceStatus,
        findService, markServiceFailed, addService, hprobe, hk, htype]

theorem healthcheckServices_single_evict (probe : String → Bool) (id : String) (s : Service)
    (regs : List Nat)
    (htype : s.connSettings.serviceType = serviceTypePostgresql ∨
             s.connSettings.serviceType = serviceTypePgbouncer)
    (hprobe : probe s.connSettings.conninfo = false) :
    healthcheckServices probe ⟨[(id, { s with totalErrors := 9 })], regs⟩ =
      ⟨[], match s.collector with
           | some c => regs.filter (fun x => x ≠ c)
           | none => regs⟩ := by
  rcases hc : s.collector with _ | c <;>
    simp [healthcheckServices, getServiceIDs, healthcheckStep, getService, getServiceStatus,
          findService, removeService, hprobe, htype, hc, errorThreshold]

theorem healthcheckServices_empty_repo (probe : String → Bool) (regs : List Nat) :
    healthcheckServices probe ⟨[], regs⟩ = ⟨[], regs⟩ := rfl

/-- C2: a remote service entering with failure counter 0 and a probe that
keeps failing stays registered with TotalErrors equal to the number of
failed ticks for up to nine ticks; the tenth tick removes the record and
unregisters its collector handle, and the stored counter never exceeds 9 at
any point of the run. -/
theorem transient_outage_eviction (probe : String → Bool) (id : String) (s : Service)
    (regs : List Nat)
    (htype : s.connSettings.serviceType = serviceTypePostgresql ∨
             s.connSettings.serviceType = serviceTypePgbouncer)
    (hzero : s.totalErrors = 0)
    (hprobe : probe s.connSettings.conninfo = false)
    (n : Nat) (hn : n ≤ 9) :
    ((healthcheckServices probe)^[n] ⟨[(id, s)], regs⟩ =
        ⟨[(id, { s with totalErrors := n })], regs⟩) ∧
    ((healthcheckServices probe)^[10] ⟨[(id, s)], regs⟩ =
        ⟨[], match s.collector with
             | some c => regs.filter (fun x => x ≠ c)
             | none => regs⟩) ∧
    (∀ m, ∀ q ∈ ((healthcheckServices probe)^[m] ⟨[(id, s)], regs⟩).repo,
        q.2.totalErrors ≤ 9) := by
  have hiter : ∀ k, k ≤ 9 → (healthcheckServices probe)^[k] ⟨[(id, s)], regs⟩ =
      ⟨[(id, { s with totalErrors := k })], regs⟩ := by
    intro k
    induction k with
    | zero =>
      intro _
      obtain ⟨sid, cs, col, te⟩ := s
      simp only at hzero
      subst hzero
      rfl
    | succ k ih =>
      intro hk
      rw [Function.iterate_succ_apply', ih (by omega)]
      exact healthcheckServices_single_fail probe id s regs htype hprobe k (by
        simp [errorThreshold]; omega)
  have h10 : (healthcheckServices probe)^[10] ⟨[(id, s)], regs⟩ =
      ⟨[], match s.collector with
           | some c => regs.filter (fun x => x ≠ c)
           | none => regs⟩ := by
    have : (10 : Nat) = 9 + 1 := rfl
    rw [this, Function.iterate_succ_apply', hiter 9 (by omega)]
    exact healthcheckServices_single_evict probe id s regs htype hprobe
  refine ⟨hiter n hn, h10, ?_⟩
  intro m q hq
  rcases le_or_lt m 9 with hm | hm
  · rw [hiter m hm] at hq
    simp only [List.mem_singleton] at hq
    subst hq
    simpa using hm
  · have hsplit : m = (m - 10) + 10 := by omega
    rw [hsplit, Function.iterate_add_apply, h10] at hq
    have hfix : ∀ r, (healthcheckServices probe)^[r]
        (⟨[], match s.collector with
              | some c => regs.filter (fun x => x ≠ c)
              | none => regs⟩ : State) =
        ⟨[], match s.collector with
             | some c => regs.filter (fun x => x ≠ c)
             | none => regs⟩ := by
      intro r
      induction r with
      | zero => rfl
      | succ r ih => rw [Function.iterate_succ_apply', ih, healthcheckServices_empty_repo]
    rw [hfix] at hq
    simp at hq

/-- Witness for C2: a concrete postgres service with collector handle 1. -/
theorem transient_outage_eviction_w :
    ((healthcheckServices (fun _ => false))^[9]
        ⟨[("postgres:5432", ⟨"postgres:5432", ⟨"postgres", "c"⟩, some 1, 0⟩)], [1, 2]⟩ =
      ⟨[("postgres:5432", ⟨"postgres:5432", ⟨"postgres", "c"⟩, some 1, 9⟩)], [1, 2]⟩) ∧
    ((healthcheckServices (fun _ => false))^[10]
        ⟨[("postgres:5432", ⟨"postgres:5432", ⟨"postgres", "c"⟩, some 1, 0⟩)], [1, 2]⟩ =
      ⟨[], [2]⟩) ∧
    (∀ m, ∀ q ∈ ((healthcheckServices (fun _ => false))^[m]
        ⟨[("postgres:5432", ⟨"postgres:5432", ⟨"postgres", "c"⟩, some 1, 0⟩)], [1, 2]⟩).repo,
        q.2.totalErrors ≤ 9) :=
  transient_outage_eviction (fun _ => false) "postgres:5432"
    ⟨"postgres:5432", ⟨"postgres", "c"⟩, some 1, 0⟩ [1, 2]
    (Or.inl rfl) rfl rfl 9 (by decide)

/-- A process whose discovery outcome is already reflected in the repo: any
candidate it yields has a matching record. -/
def StableProc (fs : Fs) (probe : String → Bool) (defaults : List (String × String))
    (repo : Repo) (proc : GoProcess) : Prop :=
  ∀ s, candidate fs probe defaults proc = some s →
    (getService repo s.serviceID).serviceID = s.serviceID

theorem lookupStep_of_stable (fs : Fs) (probe : String → Bool)
    (defaults : List (String × String)) (repo : Repo) (proc : GoProcess)
    (h : StableProc fs probe defaults repo proc) :
    lookupStep fs probe defaults repo proc = repo := by
  unfold lookupStep
  cases hc : candidate fs probe defaults proc with
  | none => rfl
  | some s => simp [h s hc]

theorem lookupStep_preserves_stable (fs : Fs) (probe : String → Bool)
    (defaults : List (String × String)) (repo : Repo) (proc proc' : GoProcess)
    (h : StableProc fs probe defaults repo proc') :
    StableProc fs probe defaults (lookupStep fs probe defaults repo proc) proc' := by
  intro s hs
  unfold lookupStep
  cases hc : candidate fs probe defaults proc with
  | none => exact h s hs
  | some s2 =>
    by_cases hin : (getService repo s2.serviceID).serviceID = s2.serviceID
    · simp only [hin, if_pos]
      exact h s hs
    · simp only [hin, if_neg, not_false_iff]
      unfold getService
      rw [findService_addService]
      by_cases he : s2.serviceID = s.serviceID
      · simp [he]
      · simp only [he, if_neg, not_false_iff]
        exact h s hs

theorem lookupStep_establishes_stable (fs : Fs) (probe : String → Bool)
    (defaults : List (String × String)) (repo : Repo) (proc : GoProcess) :
    StableProc fs probe defaults (lookupStep fs probe defaults repo proc) proc := by
  intro s hs
  unfold lookupStep
  rw [hs]
  by_cases hin : (getService repo s.serviceID).serviceID = s.serviceID
  · simp [hin]
  · simp only [hin, if_neg, not_false_iff]
    unfold getService
    rw [findService_addService]
    simp

theorem lookupServices_preserves_stable (fs : Fs) (probe : String → Bool)
    (defaults : List (String × String)) (procs : List GoProcess) :
    ∀ (repo : Repo) (proc' : GoProcess), StableProc fs probe defaults repo proc' →
      StableProc fs probe defaults (lookupServices fs probe defaults procs repo) proc' := by
  induction procs with
  | nil => intro repo proc' h; exact h
  | cons p ps ih =>
    intro repo proc' h
    exact ih (lookupStep fs probe defaults repo p) proc'
      (lookupStep_preserves_stable fs probe defaults repo p proc' h)

theorem lookupServices_establishes_stable (fs : Fs) (probe : String → Bool)
    (defaults : List (String × String)) (procs : List GoProcess) :
    ∀ (repo : Repo) (proc : GoProcess), proc ∈ procs →
      StableProc fs probe defaults (lookupServices fs probe defaults procs repo) proc := by
  induction procs with
  | nil => intro repo proc h; cases h
  | cons p ps ih =>
    intro repo proc h
    rcases List.mem_cons.mp h with h | h
    · subst h
      exact lookupServices_preserves_stable fs probe defaults ps _ proc
        (lookupStep_establishes_stable fs probe defaults repo proc)
    · exact ih _ proc h

theorem lookupServices_of_all_stable (fs : Fs) (probe : String → Bool)
    (defaults : List (String × String)) (procs : List GoProcess) :
    ∀ (repo : Repo), (∀ p ∈ procs, StableProc fs probe defaults repo p) →
      lookupServices fs probe defaults procs repo = repo := by
  induction procs with
  | nil => intro repo _; rfl
  | cons p ps ih =>
    intro repo h
    have hstep : lookupStep fs probe defaults repo p = repo :=
      lookupStep_of_stable fs probe defaults repo p (h p (List.mem_cons_self p ps))
    show lookupServices fs probe defaults ps (lookupStep fs probe defaults repo p) = repo
    rw [hstep]
    exact ih repo (fun q hq => h q (List.mem_cons_of_mem p hq))

/-- C6: discovery is idempotent: with a stable process set (and unchanged
filesystem and probe behaviour) a second lookupServices pass leaves the
repository of the first pass unchanged, record for record. -/
theorem lookupServices_idempotent (fs : Fs) (probe : String → Bool)
    (defaults : List (String × String)) (procs : List GoProcess) (repo : Repo) :
    lookupServices fs probe defaults procs (lookupServices fs probe defaults procs repo) =
      lookupServices fs probe defaults procs repo :=
  lookupServices_of_all_stable fs probe defaults procs _
    (fun p hp => lookupServices_establishes_stable fs probe defaults procs repo p hp)

/-- The host pseudo-service is present with its system type. -/
def SystemPresent (st : State) : Prop :=
  ∃ r, findService st.repo "system:0" = some r ∧
    r.connSettings.serviceType = serviceTypeSystem

theorem id_ne_system (pre t : String) (hpre : 9 ≤ pre.length) : pre ++ t ≠ "system:0" := by
  intro h
  have hl := congrArg String.length h
  rw [String.length_append] at hl
  have h8 : String.length "system:0" = 8 := rfl
  omega

theorem discoverPostgres_id_form (fs : Fs) (probe : String → Bool)
    (defaults : List (String × String)) (proc : GoProcess) (s : Service)
    (h : discoverPostgres fs probe defaults proc = some s) :
    ∃ p : Int, s.serviceID = serviceTypePostgresql ++ ":" ++ toString p := by
  cases hc : parsePostgresProcessCmdline proc.cmdline with
  | none => simp [discoverPostgres, hc] at h
  | some d =>
    cases hp : newPostgresConnectionParams fs (d ++ "/postmaster.pid") with
    | none => simp [discoverPostgres, hc, hp] at h
    | some params =>
      simp [discoverPostgres, hc, hp] at h
      exact ⟨params.listenPort, by simp [← h]⟩

theorem discoverPgbouncer_id_form (fs : Fs) (probe : String → Bool)
    (defaults : List (String × String)) (proc : GoProcess) (s : Service)
    (h : discoverPgbouncer fs probe defaults proc = some s) :
    ∃ p : Int, s.serviceID = serviceTypePgbouncer ++ ":" ++ toString p := by
  by_cases he : proc.cmdlineStr = ""
  · simp [discoverPgbouncer, he] at h
  · cases hp : parsePgbouncerIniFile fs (parsePgbouncerCmdline proc.cmdlineStr) with
    | none => simp [discoverPgbouncer, he, hp] at h
    | some params =>
      by_cases hpr : probe (newPgbouncerConnectionString params defaults)
      · simp [discoverPgbouncer, he, hp, hpr] at h
        exact ⟨params.listenPort, by simp [← h]⟩
      · simp [discoverPgbouncer, he, hp, hpr] at h

theorem candidate_id_ne_system (fs : Fs) (probe : String → Bool)
    (defaults : List (String × String)) (proc : GoProcess) (s : Service)
    (h : candidate fs probe defaults proc = some s) : s.serviceID ≠ "system:0" := by
  unfold candidate at h
  by_cases h1 : proc.name = "postgres"
  · by_cases h2 : proc.ppid = 1
    · simp only [h1, h2, if_pos] at h
      obtain ⟨p, hp⟩ := discoverPostgres_id_form fs probe defaults proc s h
      rw [hp]
      exact id_ne_system (serviceTypePostgresql ++ ":") (toString p) (by decide)
    · simp [h1, h2] at h
  · by_cases h3 : proc.name = "pgbouncer"
    · simp only [h1, h3, if_neg, not_false_iff, if_pos] at h
      obtain ⟨p, hp⟩ := discoverPgbouncer_id_form fs probe defaults proc s h
      rw [hp]
      exact id_ne_system (serviceTypePgbouncer ++ ":") (toString p) (by decide)
    · simp [h1, h3] at h

theorem lookupStep_preserves_system (fs : Fs) (probe : String → Bool)
    (defaults : List (String × String)) (repo : Repo) (proc : GoProcess) :
    findService (lookupStep fs probe defaults repo proc) "system:0" =
      findService repo "system:0" := by
  unfold lookupStep
  cases hc : candidate fs probe defaults proc with
  | none => rfl
  | some s =>
    by_cases hin : (getService repo s.serviceID).serviceID = s.serviceID
    · simp [hin]
    · simp only [hin, if_neg, not_false_iff]
      rw [findService_addService]
      simp [candidate_id_ne_system fs probe defaults proc s hc]

theorem lookupServices_preserves_system (fs : Fs) (probe : String → Bool)
    (defaults : List (String × String)) (procs : List GoProcess) :
    ∀ repo : Repo,
      findService (lookupServices fs probe defaults procs repo) "system:0" =
        findService repo "system:0" := by
  induction procs with
  | nil => intro repo; rfl
  | cons p ps ih =>
    intro repo
    show findService (lookupServices fs probe defaults ps (lookupStep fs probe defaults repo p))
        "system:0" = _
    rw [ih, lookupStep_preserves_system]

theorem setupGo_preserves_system (pgCfgOk : String → Bool) (mk : String → Option Nat) :
    ∀ (ids : List String) (st : State), SystemPresent st →
      SystemPresent (setupGo pgCfgOk mk ids st).1 := by
  intro ids
  induction ids with
  | nil => intro st h; exact h
  | cons id rest ih =>
    intro st h
    simp only [setupGo]
    by_cases h1 : (getService st.repo id).collector = none
    · simp only [h1, if_pos]
      by_cases h2 : (getService st.repo id).connSettings.serviceType = serviceTypeSystem ∨
          (getService st.repo id).connSettings.serviceType = serviceTypePostgresql ∨
          (getService st.repo id).connSettings.serviceType = serviceTypePgbouncer
      · simp only [h2, if_pos]
        by_cases h3 : (getService st.repo id).connSettings.serviceType = serviceTypePostgresql ∧
            ¬ pgCfgOk ((getService st.repo id).connSettings.conninfo)
        · simp only [h3, if_pos]
          exact ih st h
        · simp only [h3, if_neg, not_false_iff]
          cases hmk : mk id with
          | none => exact h
          | some c =>
            apply ih
            obtain ⟨r, hr, hty⟩ := h
            by_cases hid : id = "system:0"
            · subst hid
              refine ⟨{ getService st.repo "system:0" with collector := some c }, ?_, ?_⟩
              · simp only []
                rw [findService_addService]
                simp
              · have : getService st.repo "system:0" = r := by simp [getService, hr]
                rw [this]
                exact hty
            · refine ⟨r, ?_, hty⟩
              simp only []
              rw [findService_addService]
              simp only [hid, if_neg]
              · exact hr
      · simp only [h2, if_neg, not_false_iff]
        exact ih st h
    · simp only [h1, if_neg, not_false_iff]
      exact ih st h

theorem healthcheckStep_preserves_system (probe : String → Bool) (st : State) (id : String)
    (hok : ∀ r, findService st.repo "system:0" = some r →
      r.connSettings.serviceType = serviceTypeSystem) :
    findService (healthcheckStep probe st id).repo "system:0" =
      findService st.repo "system:0" := by
  by_cases hid : id = "system:0"
  · subst hid
    unfold healthcheckStep
    cases hr : findService st.repo "system:0" with
    | none =>
      have hz : getService st.repo "system:0" = zeroService := by simp [getService, hr]
      simp [hz, hr, zeroService, serviceTypePostgresql, serviceTypePgbouncer]
    | some r =>
      have hty := hok r hr
      have hg : getService st.repo "system:0" = r := by simp [getService, hr]
      simp [hg, hr, hty, serviceTypeSystem, serviceTypePostgresql, serviceTypePgbouncer]
  · unfold healthcheckStep
    by_cases c1 : (getService st.repo id).connSettings.serviceType = serviceTypePostgresql ∨
        (getService st.repo id).connSettings.serviceType = serviceTypePgbouncer
    · simp only [c1, if_pos]
      by_cases c2 : probe (getService st.repo id).connSettings.conninfo = true
      · simp only [c2, if_pos]
      · simp only [c2, if_neg, not_false_iff]
        by_cases c3 : getServiceStatus st.repo id + 1 < errorThreshold
        · simp only [c3, if_pos]
          show findService (markServiceFailed st.repo id) "system:0" = _
          unfold markServiceFailed
          rw [findService_addService]
          simp [hid]
        · simp only [c3, if_neg, not_false_iff]
          cases hcol : (getService st.repo id).collector with
          | none =>
            simp only [hcol]
            exact findService_removeService_ne st.repo id "system:0" hid
          | some c =>
            simp only [hcol]
            exact findService_removeService_ne st.repo id "system:0" hid
    · simp [c1]

theorem healthcheck_foldl_preserves_system (probe : String → Bool) :
    ∀ (ids : List String) (st : State),
      (∀ r, findService st.repo "system:0" = some r →
        r.connSettings.serviceType = serviceTypeSystem) →
      findService ((ids.foldl (healthcheckStep probe) st)).repo "system:0" =
        findService st.repo "system:0" := by
  intro ids
  induction ids with
  | nil => intro st _; rfl
  | cons id rest ih =>
    intro st h
    have hstep := healthcheckStep_preserves_system probe st id h
    have hok2 : ∀ r, findService (healthcheckStep probe st id).repo "system:0" = some r →
        r.connSettings.serviceType = serviceTypeSystem := by
      intro r hr
      rw [hstep] at hr
      exact h r hr
    show findService ((rest.foldl (healthcheckStep probe) (healthcheckStep probe st id))).repo
        "system:0" = _
    rw [ih (healthcheckStep probe st id) hok2, hstep]

theorem healthcheckServices_preserves_system (probe : String → Bool) (st : State)
    (hok : ∀ r, findService st.repo "system:0" = some r →
      r.connSettings.serviceType = serviceTypeSystem) :
    findService (healthcheckServices probe st).repo "system:0" =
      findService st.repo "system:0" :=
  healthcheck_foldl_preserves_system probe (getServiceIDs st.repo) st hok

/-- C5: the system:0 record.  Registration stores it under the literal key;
a full discovery tick (lookup, setup, healthcheck) keeps a record with the
system service type under that key; and a health tick leaves the system:0
entry exactly as it was (never probed, failed or removed). -/
theorem system_service_invariant (fs : Fs) (probe : String → Bool)
    (defaults : List (String × String)) (pgCfgOk : String → Bool) (mk : String → Option Nat)
    (procs : List GoProcess) (st : State) (r : Service)
    (hfind : findService st.repo "system:0" = some r)
    (hty : r.connSettings.serviceType = serviceTypeSystem) :
    (∀ repo, findService (addService repo "system:0" systemService) "system:0" =
        some systemService) ∧
    (∃ r1, findService (discoveryTickBody fs probe defaults pgCfgOk mk procs st).repo
        "system:0" = some r1 ∧ r1.connSettings.serviceType = serviceTypeSystem) ∧
    findService (healthcheckServices probe st).repo "system:0" =
      findService st.repo "system:0" := by
  have hok : ∀ r', findService st.repo "system:0" = some r' →
      r'.connSettings.serviceType = serviceTypeSystem := by
    intro r' hr'
    rw [hfind] at hr'
    cases hr'
    exact hty
  refine ⟨?_, ?_, healthcheckServices_preserves_system probe st hok⟩
  · intro repo
    rw [findService_addService]
    simp
  · have hp1 : SystemPresent { st with repo := lookupServices fs probe defaults procs st.repo } := by
      refine ⟨r, ?_, hty⟩
      show findService (lookupServices fs probe defaults procs st.repo) "system:0" = some r
      rw [lookupServices_preserves_system]
      exact hfind
    have hp2 := setupGo_preserves_system pgCfgOk mk
      (getServiceIDs (lookupServices fs probe defaults procs st.repo))
      { st with repo := lookupServices fs probe defaults procs st.repo } hp1
    rcases hset : setupServices pgCfgOk mk
        { st with repo := lookupServices fs probe defaults procs st.repo } with ⟨st2, flag⟩
    have hp3 : SystemPresent st2 := by
      have he : (setupServices pgCfgOk mk
          { st with repo := lookupServices fs probe defaults procs st.repo }).1 = st2 := by
        rw [hset]
      rw [← he]
      exact hp2
    obtain ⟨r2, hr2, hty2⟩ := hp3
    have hok2 : ∀ r', findService st2.repo "system:0" = some r' →
        r'.connSettings.serviceType = serviceTypeSystem := by
      intro r' hr'
      rw [hr2] at hr'
      cases hr'
      exact hty2
    refine ⟨r2, ?_, hty2⟩
    simp only [discoveryTickBody, hset]
    cases flag
    · exact hr2
    · rw [healthcheckServices_preserves_system probe st2 hok2]
      exact hr2

/-- Witness for C5 at the one-entry registry holding only system:0, with an
empty process table. -/
theorem system_service_invariant_w :
    (∀ repo, findService (addService repo "system:0" systemService) "system:0" =
        some systemService) ∧
    (∃ r1, findService
        ((discoveryTickBody (fun _ => none) (fun _ => false) [] (fun _ => true)
          (fun _ => some 0) [] ⟨[("system:0", systemService)], []⟩).repo)
        "system:0" = some r1 ∧ r1.connSettings.serviceType = serviceTypeSystem) ∧
    findService
        ((healthcheckServices (fun _ => false) ⟨[("system:0", systemService)], []⟩).repo)
        "system:0" =
      findService ([("system:0", systemService)] : Repo) "system:0" :=
  system_service_invariant (fun _ => none) (fun _ => false) [] (fun _ => true)
    (fun _ => some 0) [] ⟨[("system:0", systemService)], []⟩ systemService
    (by decide) rfl
